import Mathlib

/-!
Verification of the ChainClient core of the Linera protocol repository.

The repository slice under test ships the client unit tests
(`linera-core/src/unit_tests/client_tests.rs`); the `ChainClient`
implementation itself is not part of the slice.  Following the tests and the
specification, the client state machine is modelled below as a pure Lean
development: amounts are natural numbers of atto-units, fallible calls return
an explicit result type, and every operation is an executable function from
client state to client state.  The end-to-end scenarios of the test file are
replayed as concrete computations and the claimed properties are proved by
kernel evaluation.
-/

namespace Linera

/-- Amounts are fixed-point balances in atto-units (10⁻¹⁸ of a token). -/
abbrev Amount := Nat

/-- A whole number of tokens, in atto-units. -/
def tok (n : Nat) : Amount := n * 1000000000000000000

/-- A whole number of milli-tokens, in atto-units. -/
def mil (n : Nat) : Amount := n * 1000000000000000

/-- Chain identifiers: either a root chain from the genesis description, or a
child chain derived from the message that created it. -/
inductive ChainId where
  | root (n : Nat)
  | child (parent : ChainId) (height : Nat) (index : Nat)
deriving DecidableEq

/-- MessageId = (ChainId, BlockHeight, index): the deterministic address of a
message emitted by a block's operation. -/
structure MessageId where
  chain_id : ChainId
  height : Nat
  index : Nat
deriving DecidableEq

/-- Child-chain derivation from the identifier of the OpenChain message. -/
def ChainId.childOf (m : MessageId) : ChainId :=
  .child m.chain_id m.height m.index

/-- An account is either a chain's unprotected balance or an owner-scoped
sub-account on a chain.  Owners are opaque and modelled as naturals. -/
inductive Account where
  | chain (id : ChainId)
  | owner (id : ChainId) (owner : Nat)
deriving DecidableEq

/-- The chain an account lives on. -/
def Account.chainOf : Account → ChainId
  | .chain id => id
  | .owner id _ => id

/-- System operations appearing in blocks, as exercised by the client tests. -/
inductive Operation where
  | Transfer (recipient : Account) (amount : Amount)
  | Claim (owner : Nat) (target : ChainId) (recipient : Account) (amount : Amount)
  | OpenChain (publicKey : Nat)
  | CloseChain
  | RotateKey (publicKey : Nat)
  | TransferOwnership (publicKey : Nat)
  | ChangeMultipleOwners (keys : List (Nat × Nat))
  | SubscribeToNewCommittees
  | CreateCommittee (epoch : Nat)
  | RemoveCommittee (epoch : Nat)
deriving DecidableEq

/-- Cross-chain messages delivered through inboxes. -/
inductive Message where
  | credit (target : Account) (amount : Amount)
  | withdraw (owner : Nat) (amount : Amount) (recipient : Account)
  | openChain (publicKey : Nat)
  | newCommittee (epoch : Nat)
  | subscribe (chain : ChainId)
deriving DecidableEq

/-- A block: chain, height, epoch, operations and the outgoing messages
computed by executing the operations. -/
structure Block where
  chain_id : ChainId
  height : Nat
  epoch : Nat
  operations : List Operation
  outgoing : List (ChainId × Message)
deriving DecidableEq

/-- Certified values: confirmed blocks, validated blocks and leader
timeouts. -/
inductive CertificateValue where
  | ConfirmedBlock (block : Block)
  | ValidatedBlock (block : Block)
  | LeaderTimeout (chain_id : ChainId) (height : Nat) (epoch : Nat)
deriving DecidableEq

/-- A quorum certificate over a value, tagged with the round it was formed
in. -/
structure Certificate where
  value : CertificateValue
  round : Nat
deriving DecidableEq

/-- Whether a certificate is a ConfirmedBlock certificate at the given
height. -/
def Certificate.isConfirmedAt (c : Certificate) (h : Nat) : Bool :=
  match c.value with
  | .ConfirmedBlock b => b.height == h
  | _ => false

/-- The epoch a confirmed-block certificate was produced under. -/
def Certificate.epochOf (c : Certificate) : Nat :=
  match c.value with
  | .ConfirmedBlock b => b.epoch
  | .ValidatedBlock b => b.epoch
  | .LeaderTimeout _ _ e => e

/-- Chain manager: single owner, or multi-owner round state carrying the
current round and its wall-clock timeout. -/
inductive ChainManager where
  | singleOwner
  | multiOwner (round : Nat) (round_timeout : Nat)
deriving DecidableEq

/-- The round currently reported for the chain. -/
def ChainManager.currentRound : ChainManager → Nat
  | .singleOwner => 0
  | .multiOwner r _ => r

/-- Node-level errors reported by individual validators. -/
inductive NodeError where
  | ClientIoError
  | ArithmeticError
  | MissingVoteInValidatorResponse
deriving DecidableEq

/-- Communication outcome over a committee: a Trusted error is reported by
at least f+1 validators, a Sample error means the quorum was unreachable. -/
inductive CommunicationError where
  | Trusted (inner : NodeError)
  | Sample (inner : NodeError)
deriving DecidableEq

/-- Errors surfaced by the ChainClient. -/
inductive ChainClientError where
  | InsufficientFunding
  | CannotFindKeyForSingleOwnerChain
  | InactiveChain
  | WalletSynchronizationError
  | CommitteeSynchronizationError
  | CommitteeDeprecationError
  | CommunicationError (e : CommunicationError)
deriving DecidableEq

/-- Result of a fallible client call. -/
inductive Outcome (α : Type) where
  | ok (value : α)
  | fail (e : ChainClientError)
deriving DecidableEq

/-- Whether a call succeeded. -/
def Outcome.isOk {α : Type} : Outcome α → Bool
  | .ok _ => true
  | .fail _ => false

/-- Extract the value of a successful call, with a default for failures. -/
def Outcome.getD {α : Type} (o : Outcome α) (d : α) : α :=
  match o with
  | .ok v => v
  | .fail _ => d

/-- Modelled from the spec: a committee of validators with equal weights,
split by fault type as in the test builder (honest, offline, malicious). -/
structure Committee where
  honest : Nat
  offline : Nat
  malicious : Nat
deriving DecidableEq

/-- Total number of validators. -/
def Committee.size (c : Committee) : Nat := c.honest + c.offline + c.malicious

/-- Maximum tolerated Byzantine weight f for n equal-weight validators. -/
def Committee.maxFaulty (c : Committee) : Nat := (c.size - 1) / 3

/-- Quorum threshold 2f+1. -/
def Committee.quorum (c : Committee) : Nat := 2 * c.maxFaulty + 1

/-- Modelled from the spec: fan-out over the committee.  A quorum of honest
validators succeeds; otherwise an error reported by at least f+1 validators
is promoted to Trusted (malicious validators answer with corrupted data that
surfaces as ArithmeticError, offline ones as ClientIoError, as in the
client tests); an unreachable quorum yields a Sample error. -/
def Committee.communicate (c : Committee) : Outcome Unit :=
  if c.quorum ≤ c.honest then .ok ()
  else if c.maxFaulty + 1 ≤ c.malicious then
    .fail (.CommunicationError (.Trusted .ArithmeticError))
  else if c.maxFaulty + 1 ≤ c.offline then
    .fail (.CommunicationError (.Trusted .ClientIoError))
  else .fail (.CommunicationError (.Sample .ClientIoError))

/-- After a successful round of communication every honest validator stores
the produced certificate. -/
def Committee.certificateHolders (c : Committee) : Nat := c.honest

/-- Worker notifications published to subscribers. -/
inductive Reason where
  | NewBlock (height : Nat)
  | NewIncomingMessage (height : Nat)
  | NewRound (height : Nat) (round : Nat)
deriving DecidableEq

/-- A notification pairs the chain with the reason. -/
structure Notification where
  chain_id : ChainId
  reason : Reason
deriving DecidableEq

/-- Modelled from the spec: the per-chain client state (the ChainClient
implementation is not part of the source slice; only its unit tests are).
Fields follow the spec's ChainClient/ChainState description: identifier,
optional signing capability, next block height, pending proposal, committed
balance, owner-scoped sub-accounts, the inbox of queued incoming messages,
the currently known epoch range, liveness flag, the per-block certificate
fee of the resource policy, the round manager, the committee-subscription
set (admin side) and the injected round-timeout configuration. -/
structure ChainClient where
  chain_id : ChainId
  admin_id : ChainId
  has_key : Bool
  next_block_height : Nat
  pending_block : Option Block
  balance : Amount
  owner_balances : List (Nat × Amount)
  inbox : List Message
  epoch : Nat
  min_epoch : Nat
  active : Bool
  fee : Amount
  manager : ChainManager
  subscribers : List ChainId
  timeout_config : Nat
deriving DecidableEq

/-- Balance of an owner-scoped sub-account. -/
def ownerBalance (l : List (Nat × Amount)) (o : Nat) : Amount :=
  match l.find? (fun p => p.1 == o) with
  | some p => p.2
  | none => 0

/-- Add to an owner-scoped sub-account. -/
def creditOwner (l : List (Nat × Amount)) (o : Nat) (a : Amount) : List (Nat × Amount) :=
  match l with
  | [] => [(o, a)]
  | p :: rest => if p.1 == o then (o, p.2 + a) :: rest else p :: creditOwner rest o a

/-- Subtract from an owner-scoped sub-account. -/
def debitOwner (l : List (Nat × Amount)) (o : Nat) (a : Amount) : List (Nat × Amount) :=
  match l with
  | [] => []
  | p :: rest => if p.1 == o then (o, p.2 - a) :: rest else p :: debitOwner rest o a

/-- Modelled from the spec: outgoing messages produced by executing one
operation of a block at the given height and operation index. -/
def Operation.messages (c : ChainClient) (height index : Nat) :
    Operation → List (ChainId × Message)
  | .Transfer recipient amount => [(recipient.chainOf, .credit recipient amount)]
  | .Claim owner target recipient amount => [(target, .withdraw owner amount recipient)]
  | .OpenChain pk => [(ChainId.child c.chain_id height index, .openChain pk)]
  | .SubscribeToNewCommittees => [(c.admin_id, .subscribe c.chain_id)]
  | .RemoveCommittee _ => c.subscribers.map fun ch => (ch, .newCommittee c.epoch)
  | _ => []

/-- Build the block for a list of operations at the current height. -/
def ChainClient.makeBlock (c : ChainClient) (ops : List Operation) : Block :=
  { chain_id := c.chain_id
    height := c.next_block_height
    epoch := c.epoch
    operations := ops
    outgoing := ops.enum.flatMap fun p => p.2.messages c c.next_block_height p.1 }

/-- Modelled from the spec: speculative execution / staging of a block.
Checks, in the order observed by the tests: the chain is active, the client
holds the signing key, and the balance covers the transferred value plus the
per-block fee; on success returns the staged block.  Errors here are
surfaced immediately and nothing is broadcast. -/
def ChainClient.stage (c : ChainClient) (cost : Amount) (ops : List Operation) :
    Outcome Block :=
  if !c.active then .fail .InactiveChain
  else if !c.has_key then .fail .CannotFindKeyForSingleOwnerChain
  else if c.balance < cost + c.fee then .fail .InsufficientFunding
  else .ok (c.makeBlock ops)

/-- Number of block proposals broadcast to validators by one client call:
zero when staging fails, one per committee member otherwise. -/
def ChainClient.broadcastCount (c : ChainClient) (com : Committee) (cost : Amount)
    (ops : List Operation) : Nat :=
  match c.stage cost ops with
  | .fail _ => 0
  | .ok _ => com.size

/-- Effect of one of the chain's own operations on the client state, applied
when the confirmed certificate is committed. -/
def ChainClient.applyOp (c : ChainClient) : Operation → ChainClient
  | .CloseChain => { c with active := false }
  | .TransferOwnership _ => { c with has_key := false }
  | .RotateKey _ => { c with has_key := true }
  | .ChangeMultipleOwners _ => { c with manager := .multiOwner 0 c.timeout_config }
  | .CreateCommittee e => { c with epoch := e }
  | .RemoveCommittee _ => { c with min_epoch := c.epoch }
  | _ => c

/-- Modelled from the spec: the propose-and-certify algorithm.  Stage the
block (speculative execution), record it as the pending proposal, broadcast
via the communicator; on quorum commit the executed block locally: debit the
cost and fee, advance `next_block_height`, clear `pending_block`, apply
ownership/committee effects and emit the NewBlock notification.  On a
communication failure the pending proposal stays set and no local commit
happens. -/
def ChainClient.execute_operations (c : ChainClient) (com : Committee)
    (cost : Amount) (ops : List Operation) :
    ChainClient × Outcome (Certificate × List Notification) :=
  match c.stage cost ops with
  | .fail e => (c, .fail e)
  | .ok b =>
    let cp := { c with pending_block := some b }
    match com.communicate with
    | .fail e => (cp, .fail e)
    | .ok _ =>
      let committed :=
        { cp with balance := cp.balance - (cost + c.fee)
                  next_block_height := c.next_block_height + 1
                  pending_block := none }
      (b.operations.foldl ChainClient.applyOp committed,
       .ok (⟨.ConfirmedBlock b, 0⟩, [⟨c.chain_id, .NewBlock b.height⟩]))

/-- Modelled from the spec: `transfer_to_account` issues a Transfer
operation and waits for a confirmed certificate. -/
def ChainClient.transfer_to_account (c : ChainClient) (com : Committee)
    (amount : Amount) (recipient : Account) :
    ChainClient × Outcome (Certificate × List Notification) :=
  c.execute_operations com amount [.Transfer recipient amount]

/-- Modelled from the spec: identical staging and certification, but the
confirmed certificate is not eagerly delivered cross-chain (delivery is
explicit in this model, so the function coincides with the safe variant). -/
def ChainClient.transfer_to_account_unsafe_unconfirmed (c : ChainClient)
    (com : Committee) (amount : Amount) (recipient : Account) :
    ChainClient × Outcome (Certificate × List Notification) :=
  c.execute_operations com amount [.Transfer recipient amount]

/-- Modelled from the spec: `claim` emits a Claim operation against an
owner-scoped sub-account on another chain; it spends nothing locally. -/
def ChainClient.claim (c : ChainClient) (com : Committee) (owner : Nat)
    (target : ChainId) (recipient : Account) (amount : Amount) :
    ChainClient × Outcome (Certificate × List Notification) :=
  c.execute_operations com 0 [.Claim owner target recipient amount]

/-- Modelled from the spec: `open_chain` emits an OpenChain operation and
returns the MessageId (this chain, this height, operation index 0) from
which the child chain's identifier is derived. -/
def ChainClient.open_chain (c : ChainClient) (com : Committee) (pk : Nat) :
    ChainClient × Outcome (MessageId × Certificate) :=
  let mid : MessageId := ⟨c.chain_id, c.next_block_height, 0⟩
  match c.execute_operations com 0 [.OpenChain pk] with
  | (c', .ok (cert, _)) => (c', .ok (mid, cert))
  | (c', .fail e) => (c', .fail e)

/-- Modelled from the spec: `close_chain` emits the terminal CloseChain
operation. -/
def ChainClient.close_chain (c : ChainClient) (com : Committee) :
    ChainClient × Outcome (Certificate × List Notification) :=
  c.execute_operations com 0 [.CloseChain]

/-- Modelled from the spec: `transfer_ownership` hands the chain to a new
public key; the local client loses its signing capability. -/
def ChainClient.transfer_ownership (c : ChainClient) (com : Committee) (pk : Nat) :
    ChainClient × Outcome (Certificate × List Notification) :=
  c.execute_operations com 0 [.TransferOwnership pk]

/-- Modelled from the spec: admin-chain-only staging of a new committee,
advancing the epoch. -/
def ChainClient.stage_new_committee (c : ChainClient) (com : Committee) :
    ChainClient × Outcome (Certificate × List Notification) :=
  c.execute_operations com 0 [.CreateCommittee (c.epoch + 1)]

/-- Modelled from the spec: admin-chain-only deprecation of all previous
epochs; subscribers are notified of the current committee. -/
def ChainClient.finalize_committee (c : ChainClient) (com : Committee) :
    ChainClient × Outcome (Certificate × List Notification) :=
  c.execute_operations com 0 [.RemoveCommittee c.min_epoch]

/-- Modelled from the spec: the user-chain side of the migration channel. -/
def ChainClient.subscribe_to_new_committees (c : ChainClient) (com : Committee) :
    ChainClient × Outcome (Certificate × List Notification) :=
  c.execute_operations com 0 [.SubscribeToNewCommittees]

/-- Modelled from the spec: `key_pair` retrieval requires an active chain
and a locally held signing key. -/
def ChainClient.key_pair (c : ChainClient) : Outcome Unit :=
  if !c.active then .fail .InactiveChain
  else if c.has_key then .ok ()
  else .fail .CannotFindKeyForSingleOwnerChain

/-- Credit queued in the inbox for the chain's unprotected balance; credits
to owner-scoped sub-accounts do not count. -/
def ChainClient.inboxChainCredit (c : ChainClient) : Amount :=
  c.inbox.foldl
    (fun a m =>
      match m with
      | .credit (.chain _) v => a + v
      | _ => a)
    0

/-- Modelled from the spec: `local_balance` speculatively executes a no-op
block consuming all queued incoming messages, which itself costs the
per-block fee; the state is not mutated. -/
def ChainClient.local_balance (c : ChainClient) : Outcome Amount :=
  if c.balance + c.inboxChainCredit < c.fee then .fail .InsufficientFunding
  else .ok (c.balance + c.inboxChainCredit - c.fee)

/-- Messages of a block destined to the given chain. -/
def Block.messagesFor (b : Block) (target : ChainId) : List Message :=
  (b.outgoing.filter fun p => p.1 == target).map Prod.snd

/-- Modelled from the spec: `receive_certificate` validates the
certificate's epoch against the locally recorded committees — an epoch newer
than any known one fails with CommitteeSynchronizationError, a retired one
with CommitteeDeprecationError — then enqueues the messages destined to this
chain into the inbox; an OpenChain message activates a freshly created
chain. -/
def ChainClient.receive_certificate (c : ChainClient) (cert : Certificate) :
    Outcome ChainClient :=
  match cert.value with
  | .ConfirmedBlock b =>
    if c.epoch < b.epoch then .fail .CommitteeSynchronizationError
    else if b.epoch < c.min_epoch then .fail .CommitteeDeprecationError
    else
      let msgs := b.messagesFor c.chain_id
      .ok { c with
              inbox := c.inbox ++ msgs
              active := c.active ||
                msgs.any fun m => match m with | .openChain _ => true | _ => false }
  | _ => .fail .CommitteeSynchronizationError

/-- Effect of consuming one inbox message, together with the messages it
emits downstream.  A withdraw whose amount exceeds the owner-scoped balance
is skipped: the state is unchanged and nothing is emitted. -/
def ChainClient.applyMessage (c : ChainClient) :
    Message → ChainClient × List (ChainId × Message)
  | .credit (.chain _) a => ({ c with balance := c.balance + a }, [])
  | .credit (.owner _ o) a =>
      ({ c with owner_balances := creditOwner c.owner_balances o a }, [])
  | .withdraw o a recipient =>
      if a ≤ ownerBalance c.owner_balances o then
        ({ c with owner_balances := debitOwner c.owner_balances o a },
         [(recipient.chainOf, .credit recipient a)])
      else (c, [])
  | .openChain _ => ({ c with active := true }, [])
  | .newCommittee e => ({ c with epoch := max c.epoch e }, [])
  | .subscribe ch => ({ c with subscribers := c.subscribers ++ [ch] }, [])

/-- Modelled from the spec: `process_inbox` drains the queued messages by
producing one block that consumes them, returning any certificates
produced. -/
def ChainClient.process_inbox (c : ChainClient) (com : Committee) :
    ChainClient × Outcome (List Certificate) :=
  if c.inbox.isEmpty then (c, .ok [])
  else if !c.active then (c, .fail .InactiveChain)
  else if !c.has_key then (c, .fail .CannotFindKeyForSingleOwnerChain)
  else if c.balance + c.inboxChainCredit < c.fee then (c, .fail .InsufficientFunding)
  else
    match com.communicate with
    | .fail e => (c, .fail e)
    | .ok _ =>
      let start := { c with inbox := [] }
      let step := c.inbox.foldl
        (fun (acc : ChainClient × List (ChainId × Message)) m =>
          let r := acc.1.applyMessage m
          (r.1, acc.2 ++ r.2))
        (start, [])
      let b : Block :=
        { chain_id := c.chain_id
          height := c.next_block_height
          epoch := step.1.epoch
          operations := []
          outgoing := step.2 }
      ({ step.1 with
           balance := step.1.balance - c.fee
           next_block_height := c.next_block_height + 1
           pending_block := none },
       .ok [⟨.ConfirmedBlock b, 0⟩])

/-- Modelled from the spec: `synchronize_from_validators` pulls certificates
a quorum holds (passed explicitly in this model), enqueues their messages
for this chain without an epoch check, and returns the post-sync speculative
balance. -/
def ChainClient.synchronize_from_validators (c : ChainClient)
    (certs : List Certificate) : ChainClient × Outcome Amount :=
  let c' := certs.foldl
    (fun c cert =>
      match cert.value with
      | .ConfirmedBlock b => { c with inbox := c.inbox ++ b.messagesFor c.chain_id }
      | _ => c)
    c
  (c', c'.local_balance)

/-- Modelled from the spec: `request_leader_timeout` consults the manager's
round timeout against the injected clock; before the deadline validators
refuse to sign and the call fails with a Trusted
MissingVoteInValidatorResponse, from the deadline on it collects a
leader-timeout quorum for the current round and advances to the next
round. -/
def ChainClient.request_leader_timeout (c : ChainClient) (com : Committee)
    (clock : Nat) : ChainClient × Outcome Certificate :=
  match c.manager with
  | .singleOwner =>
      (c, .fail (.CommunicationError (.Trusted .MissingVoteInValidatorResponse)))
  | .multiOwner round tmo =>
    if clock < tmo then
      (c, .fail (.CommunicationError (.Trusted .MissingVoteInValidatorResponse)))
    else
      match com.communicate with
      | .fail e => (c, .fail e)
      | .ok _ =>
        ({ c with manager := .multiOwner (round + 1) tmo },
         .ok ⟨.LeaderTimeout c.chain_id c.next_block_height c.epoch, round⟩)

/-- An initial root chain as created by the test builder: active, holding
the signing key, at height 0, epoch 0, with the given balance and per-block
certificate fee. -/
def initialChain (n : Nat) (balance : Amount) (fee : Amount) : ChainClient :=
  { chain_id := .root n
    admin_id := .root 0
    has_key := true
    next_block_height := 0
    pending_block := none
    balance := balance
    owner_balances := []
    inbox := []
    epoch := 0
    min_epoch := 0
    active := true
    fee := fee
    manager := .singleOwner
    subscribers := []
    timeout_config := 0 }

/-- A client for a freshly derived child chain: it holds the new key but the
chain is not active until the creation certificate is delivered. -/
def make_client (id : ChainId) (fee : Amount) : ChainClient :=
  { chain_id := id
    admin_id := .root 0
    has_key := true
    next_block_height := 0
    pending_block := none
    balance := 0
    owner_balances := []
    inbox := []
    epoch := 0
    min_epoch := 0
    active := false
    fee := fee
    manager := .singleOwner
    subscribers := []
    timeout_config := 0 }

/-- Four honest validators, as in most test scenarios. -/
def honest4 : Committee := ⟨4, 0, 0⟩

/-- Four validators of which two are faulty (malicious), as built by
`TestBuilder::new(store_builder, 4, 2)`. -/
def faulty2of4 : Committee := ⟨2, 0, 2⟩

end Linera

namespace Linera

/-- A placeholder certificate used as the default of `Outcome.getD` when
extracting from calls that the theorems separately prove successful. -/
def dummyCert : Certificate := ⟨.LeaderTimeout (.root 0) 0 0, 0⟩

/-- S1 sender: root chain 1, balance 4 tokens, 0.001-per-block fee policy. -/
def c1_sender : ChainClient := initialChain 1 (tok 4) (mil 1)

/-- S1 run: transfer 3 tokens to root chain 2 under four honest validators. -/
def c1_run : ChainClient × Outcome (Certificate × List Notification) :=
  c1_sender.transfer_to_account honest4 (tok 3) (.chain (.root 2))

/-- S3 sender: root chain 1, balance 4 tokens, free default policy. -/
def c2_sender : ChainClient := initialChain 1 (tok 4) 0

/-- S3 run: unsafe unconfirmed transfer of 3 tokens with 2 of 4 validators
faulty. -/
def c2_run : ChainClient × Outcome (Certificate × List Notification) :=
  c2_sender.transfer_to_account_unsafe_unconfirmed faulty2of4 (tok 3) (.chain (.root 2))

/-- S2 sender: root chain 1 with 3 tokens under the 0.001 fee policy. -/
def c3_sender : ChainClient := initialChain 1 (tok 3) (mil 1)

/-- S2 run: transfer of the full 3 tokens, which cannot also cover the fee. -/
def c3_run : ChainClient × Outcome (Certificate × List Notification) :=
  c3_sender.transfer_to_account honest4 (tok 3) (.chain (.root 2))

/-- The owner of the sender chain in the claim-amount scenario. -/
def c4_owner : Nat := 10

/-- Claim scenario sender: root chain 1, 4 tokens, fuel-only policy (no
certificate fee). -/
def c4_s0 : ChainClient := initialChain 1 (tok 4) 0

/-- Claim scenario receiver: root chain 2 with zero balance. -/
def c4_r0 : ChainClient := initialChain 2 0 0

/-- Transfer 3 tokens into the owner-scoped sub-account on root chain 2. -/
def c4_t1 : ChainClient × Outcome (Certificate × List Notification) :=
  c4_s0.transfer_to_account honest4 (tok 3) (.owner (.root 2) c4_owner)

/-- Sender after the owner-scoped transfer. -/
def c4_s1 : ChainClient := c4_t1.1

/-- Certificate of the owner-scoped transfer. -/
def c4_certA : Certificate := (c4_t1.2.getD (dummyCert, [])).1

/-- Receiver after ingesting the transfer certificate. -/
def c4_r1 : ChainClient := (c4_r0.receive_certificate c4_certA).getD c4_r0

/-- Receiver after processing its inbox: the credit lands in the
owner-scoped sub-account. -/
def c4_r2 : ChainClient := (c4_r1.process_inbox honest4).1

/-- First claim attempt: 5 tokens, more than the claimable 3. -/
def c4_claim1 : ChainClient × Outcome (Certificate × List Notification) :=
  c4_s1.claim honest4 c4_owner (.root 2) (.chain (.root 1)) (tok 5)

/-- Sender after the oversized claim. -/
def c4_s2 : ChainClient := c4_claim1.1

/-- Effect of the oversized withdraw when the target chain applies it. -/
def c4_skip : ChainClient × List (ChainId × Message) :=
  c4_r2.applyMessage (.withdraw c4_owner (tok 5) (.chain (.root 1)))

/-- Second claim attempt: 2 tokens, within the claimable balance. -/
def c4_claim2 : ChainClient × Outcome (Certificate × List Notification) :=
  c4_s2.claim honest4 c4_owner (.root 2) (.chain (.root 1)) (tok 2)

/-- Sender after the second claim. -/
def c4_s3 : ChainClient := c4_claim2.1

/-- Certificate of the second claim. -/
def c4_certC : Certificate := (c4_claim2.2.getD (dummyCert, [])).1

/-- Receiver after ingesting the second claim certificate. -/
def c4_r3 : ChainClient := (c4_r2.receive_certificate c4_certC).getD c4_r2

/-- Receiver inbox processing of the valid withdraw. -/
def c4_p2 : ChainClient × Outcome (List Certificate) := c4_r3.process_inbox honest4

/-- Certificate produced downstream by the receiver for the valid claim. -/
def c4_certD : Certificate := (c4_p2.2.getD []).headD dummyCert

/-- Sender after ingesting the receiver's certificate. -/
def c4_s4 : ChainClient := (c4_s3.receive_certificate c4_certD).getD c4_s3

/-- Sender after processing its inbox: the claimed funds arrive. -/
def c4_s5 : ChainClient := (c4_s4.process_inbox honest4).1

/-- S6 admin chain: root chain 0 with 3 tokens, free policy. -/
def c5_admin0 : ChainClient := initialChain 0 (tok 3) 0

/-- S6 user chain: root chain 1 with zero balance. -/
def c5_user0 : ChainClient := initialChain 1 0 0

/-- Admin after staging the new committee: epoch becomes 1. -/
def c5_a1 : ChainClient := (c5_admin0.stage_new_committee honest4).1

/-- Admin transfer of 2 tokens to the user chain under epoch 1. -/
def c5_t2 : ChainClient × Outcome (Certificate × List Notification) :=
  c5_a1.transfer_to_account honest4 (tok 2) (.chain (.root 1))

/-- Admin after the first transfer. -/
def c5_a2 : ChainClient := c5_t2.1

/-- Certificate of the admin's first transfer, produced under epoch 1. -/
def c5_cert2 : Certificate := (c5_t2.2.getD (dummyCert, [])).1

/-- Admin transfer of 1 further token to the user chain. -/
def c5_t3 : ChainClient × Outcome (Certificate × List Notification) :=
  c5_a2.transfer_to_account honest4 (tok 1) (.chain (.root 1))

/-- Admin after the second transfer. -/
def c5_a3 : ChainClient := c5_t3.1

/-- Certificate of the admin's second transfer. -/
def c5_cert1 : Certificate := (c5_t3.2.getD (dummyCert, [])).1

/-- User pulls the admin transfers from a quorum of validators. -/
def c5_sync1 : ChainClient × Outcome Amount :=
  c5_user0.synchronize_from_validators [c5_cert2, c5_cert1]

/-- User after the synchronization. -/
def c5_u1 : ChainClient := c5_sync1.1

/-- User after processing the inbox; not subscribed, so still at epoch 0. -/
def c5_u2 : ChainClient := (c5_u1.process_inbox honest4).1

/-- User subscribes to committee migrations. -/
def c5_sub : ChainClient × Outcome (Certificate × List Notification) :=
  c5_u2.subscribe_to_new_committees honest4

/-- User after subscribing. -/
def c5_u3 : ChainClient := c5_sub.1

/-- Certificate of the subscription. -/
def c5_certS : Certificate := (c5_sub.2.getD (dummyCert, [])).1

/-- Admin after ingesting the subscription. -/
def c5_a4 : ChainClient := (c5_a3.receive_certificate c5_certS).getD c5_a3

/-- Admin after processing the subscription message. -/
def c5_a5 : ChainClient := (c5_a4.process_inbox honest4).1

/-- Admin finalizes the committee, retiring epoch 0 and notifying
subscribers of the current committee. -/
def c5_fin : ChainClient × Outcome (Certificate × List Notification) :=
  c5_a5.finalize_committee honest4

/-- Admin after the finalization. -/
def c5_a6 : ChainClient := c5_fin.1

/-- Certificate of the finalization block. -/
def c5_certF : Certificate := (c5_fin.2.getD (dummyCert, [])).1

/-- User pulls the finalization certificate and its migration message. -/
def c5_u4 : ChainClient := (c5_u3.synchronize_from_validators [c5_certF]).1

/-- User after consuming the migration message: now at epoch 1. -/
def c5_u5 : ChainClient := (c5_u4.process_inbox honest4).1

/-- The user retries a transfer to the admin chain after migrating. -/
def c5_retry : ChainClient × Outcome (Certificate × List Notification) :=
  c5_u5.transfer_to_account honest4 (tok 1) (.chain (.root 0))

/-- Certificate of the retried transfer, produced under epoch 1. -/
def c5_certT : Certificate := (c5_retry.2.getD (dummyCert, [])).1

/-- The admin ingests the retried transfer. -/
def c5_a7 : Outcome ChainClient := c5_a6.receive_certificate c5_certT

/-- S7 base client with an injected round-timeout configuration. -/
def c6_base (T : Nat) : ChainClient := { initialChain 1 (tok 3) 0 with timeout_config := T }

/-- S7 setup: execute the multi-owner ownership change, entering a
single-leader round with the manager's round timeout at T. -/
def c6_setup (T : Nat) : ChainClient :=
  ((c6_base T).execute_operations honest4 0 [.ChangeMultipleOwners [(0, 100), (1, 100)]]).1

/-- Open-chain scenario sender: root chain 1 with 4 tokens. -/
def c7_s0 : ChainClient := initialChain 1 (tok 4) 0

/-- Child chain identifier predicted before the OpenChain block is
proposed, from (parent root 1, height 1, index 0). -/
def c7_predicted : ChainId := ChainId.childOf ⟨.root 1, 1, 0⟩

/-- Transfer 3 tokens to the predicted child identifier before opening the
chain. -/
def c7_t1 : ChainClient × Outcome (Certificate × List Notification) :=
  c7_s0.transfer_to_account honest4 (tok 3) (.chain c7_predicted)

/-- Sender after the transfer, at height 1. -/
def c7_s1 : ChainClient := c7_t1.1

/-- Certificate of the transfer to the not-yet-created child. -/
def c7_certT : Certificate := (c7_t1.2.getD (dummyCert, [])).1

/-- Open the child chain for a new key. -/
def c7_open : ChainClient × Outcome (MessageId × Certificate) :=
  c7_s1.open_chain honest4 55

/-- Sender after the OpenChain block. -/
def c7_s2 : ChainClient := c7_open.1

/-- MessageId returned by `open_chain`. -/
def c7_mid : MessageId := (c7_open.2.getD (⟨.root 0, 0, 0⟩, dummyCert)).1

/-- Creation certificate returned by `open_chain`. -/
def c7_certO : Certificate := (c7_open.2.getD (⟨.root 0, 0, 0⟩, dummyCert)).2

/-- A client for the child chain, before any certificate is delivered. -/
def c7_child0 : ChainClient := make_client c7_predicted 0

/-- A mutating call on the child before the creation certificate arrives. -/
def c7_before : ChainClient × Outcome (Certificate × List Notification) :=
  c7_child0.transfer_to_account honest4 (tok 1) (.chain (.root 3))

/-- Child after receiving the creation certificate: now active. -/
def c7_child1 : ChainClient := (c7_child0.receive_certificate c7_certO).getD c7_child0

/-- Child after also receiving the earlier transfer certificate. -/
def c7_child2 : ChainClient := (c7_child1.receive_certificate c7_certT).getD c7_child1

/-- Close-chain scenario sender: root chain 1 with 4 tokens and fees on all
categories. -/
def c8_s0 : ChainClient := initialChain 1 (tok 4) (mil 1)

/-- Close the chain. -/
def c8_run : ChainClient × Outcome (Certificate × List Notification) :=
  c8_s0.close_chain honest4

/-- Sender after closing the chain. -/
def c8_s1 : ChainClient := c8_run.1

/-- The certificate produced by `close_chain`. -/
def c8_cert : Certificate := (c8_run.2.getD (dummyCert, [])).1

/-- The operation list of the certified close block. -/
def c8_ops : List Operation :=
  match c8_cert.value with
  | .ConfirmedBlock b => b.operations
  | _ => []

/-- S4 sender: root chain 1 with 4 tokens under the 0.001 fee policy. -/
def c9_s0 : ChainClient := initialChain 1 (tok 4) (mil 1)

/-- Hand the chain over to a new public key. -/
def c9_run : ChainClient × Outcome (Certificate × List Notification) :=
  c9_s0.transfer_ownership honest4 77

/-- Sender after the ownership handoff. -/
def c9_s1 : ChainClient := c9_run.1

/-- C1: a successful `transfer_to_account` of 3 tokens on a 4-token chain
under the 0.001-per-block fee policy and four validators produces a
ConfirmedBlock certificate at the previous `next_block_height` (0),
advances `next_block_height` to 1, leaves `local_balance` at 0.998 tokens
after one further speculative execution, and emits the NewBlock
notification with height 0 on the sender chain. -/
theorem c1_valid_transfer_with_notifications :
    c1_run.2.isOk = true ∧
    (c1_run.2.getD (dummyCert, [])).1.isConfirmedAt 0 = true ∧
    c1_run.1.next_block_height = 1 ∧
    c1_run.1.pending_block = none ∧
    c1_run.1.local_balance = .ok (mil 998) ∧
    (c1_run.2.getD (dummyCert, [])).2 = [⟨.root 1, .NewBlock 0⟩] := by
  decide

/-- C2 counterexample: with 4 validators of which 2 are faulty, the failed
`transfer_to_account_unsafe_unconfirmed` reports
CommunicationError::Trusted(ArithmeticError), as asserted by the unit test,
not Trusted(ClientIoError) as the claim states. -/
theorem c2_claimed_error_refuted :
    ¬ c2_run.2 = .fail (.CommunicationError (.Trusted .ClientIoError)) ∧
    c2_run.2 = .fail (.CommunicationError (.Trusted .ArithmeticError)) := by
  decide

/-- C2 (amended): with 4 validators and fault threshold 2, when 2
validators are faulty, `transfer_to_account_unsafe_unconfirmed` fails with
CommunicationError::Trusted(ArithmeticError); afterwards `pending_block`
is set, `next_block_height` is still 0 and the local balance is the
unchanged 4 tokens. -/
theorem c2_too_many_faults :
    c2_run.2 = .fail (.CommunicationError (.Trusted .ArithmeticError)) ∧
    c2_run.1.pending_block.isSome = true ∧
    c2_run.1.next_block_height = 0 ∧
    c2_run.1.local_balance = .ok (tok 4) := by
  decide

/-- C3: on a chain holding 3 tokens under the 0.001 fee policy, a transfer
of 3 tokens fails with InsufficientFunding during speculative execution,
no proposal is broadcast, no certificate is produced, and the client state
is completely unchanged, so `next_block_height` does not advance. -/
theorem c3_insufficient_balance :
    c3_run.2 = .fail .InsufficientFunding ∧
    c3_run.1 = c3_sender ∧
    c3_sender.broadcastCount honest4 (tok 3) [.Transfer (.chain (.root 2)) (tok 3)] = 0 ∧
    c3_run.1.next_block_height = 0 := by
  decide

/-- C4: a claim whose amount (5 tokens) exceeds the claimable owner-scoped
balance (3 tokens) on the source chain still succeeds as a local proposal,
but the target chain skips the withdraw — its state is unchanged and no
message, hence no certificate, is produced downstream; a subsequent claim
of 2 tokens within the claimable balance brings the funds back to the
recipient, whose balance ends at 3 tokens. -/
theorem c4_claim_amount :
    c4_claim1.2.isOk = true ∧
    ownerBalance c4_r2.owner_balances c4_owner = tok 3 ∧
    tok 3 < tok 5 ∧
    c4_skip.1 = c4_r2 ∧
    c4_skip.2 = [] ∧
    c4_claim2.2.isOk = true ∧
    c4_s5.local_balance = .ok (tok 3) := by
  decide

/-- C5: a user chain still at epoch 0 cannot ingest a transfer certificate
the admin chain produced under epoch 1 — `receive_certificate` fails with
CommitteeSynchronizationError — and processing its inbox without a
subscription leaves it at epoch 0; after subscribing to new committees,
synchronizing and processing the migration message it reaches epoch 1, and
the retried transfer both succeeds and is accepted by the admin chain. -/
theorem c5_committee_migration :
    c5_cert2.epochOf = 1 ∧
    c5_user0.epoch = 0 ∧
    c5_user0.receive_certificate c5_cert2 = .fail .CommitteeSynchronizationError ∧
    c5_u2.epoch = 0 ∧
    c5_u5.epoch = 1 ∧
    c5_retry.2.isOk = true ∧
    c5_a7.isOk = true := by
  decide

/-- The multi-owner setup block leaves the chain at height 1 in round 0 of
a single-leader round whose timeout is the injected configuration T. -/
theorem c6_setup_eq (T : Nat) :
    c6_setup T =
      { chain_id := .root 1, admin_id := .root 0, has_key := true,
        next_block_height := 1, pending_block := none, balance := tok 3,
        owner_balances := [], inbox := [], epoch := 0, min_epoch := 0,
        active := true, fee := 0, manager := .multiOwner 0 T,
        subscribers := [], timeout_config := T } := rfl

/-- C6: on a multi-owner chain in a single-leader round whose manager
timeout is T, `request_leader_timeout` fails with a Trusted
MissingVoteInValidatorResponse while the injected clock t is before T, and
once the clock reaches T it returns a LeaderTimeout certificate for round 0
at the current height 1 and epoch 0, after which validators report
round 1. -/
theorem c6_leader_timeout (T t : Nat) (h : t < T) :
    ((c6_setup T).request_leader_timeout honest4 t).2 =
      .fail (.CommunicationError (.Trusted .MissingVoteInValidatorResponse)) ∧
    ((c6_setup T).request_leader_timeout honest4 T).2 =
      .ok ⟨.LeaderTimeout (.root 1) 1 0, 0⟩ ∧
    (((c6_setup T).request_leader_timeout honest4 T).1).manager.currentRound = 1 := by
  refine ⟨?_, ?_, ?_⟩
  · rw [c6_setup_eq]
    simp only [ChainClient.request_leader_timeout]
    rw [if_pos h]
  · rw [c6_setup_eq]
    simp only [ChainClient.request_leader_timeout]
    rw [if_neg (lt_irrefl T)]
    rfl
  · rw [c6_setup_eq]
    simp only [ChainClient.request_leader_timeout]
    rw [if_neg (lt_irrefl T)]
    rfl

/-- C6 witness: the leader-timeout behaviour at the concrete configuration
T = 10 with the clock first at t = 3. -/
theorem c6_leader_timeout_witness :
    3 < 10 ∧
    (((c6_setup 10).request_leader_timeout honest4 3).2 =
      .fail (.CommunicationError (.Trusted .MissingVoteInValidatorResponse)) ∧
    ((c6_setup 10).request_leader_timeout honest4 10).2 =
      .ok ⟨.LeaderTimeout (.root 1) 1 0, 0⟩ ∧
    (((c6_setup 10).request_leader_timeout honest4 10).1).manager.currentRound = 1) :=
  ⟨by decide, c6_leader_timeout 10 3 (by decide)⟩

/-- C7: `open_chain` returns a MessageId whose child derivation names the
new chain; the derivation is deterministic in (parent chain id, block
height, message index), so the identifier predicted before the OpenChain
block was proposed equals the actual one, a transfer sent to the predicted
identifier reaches the child, and the child cannot be used (InactiveChain)
until the creation certificate is delivered via `receive_certificate`. -/
theorem c7_open_chain_child_id :
    (∀ m : MessageId, ChainId.childOf m = .child m.chain_id m.height m.index) ∧
    c7_open.2.isOk = true ∧
    c7_mid = ⟨.root 1, 1, 0⟩ ∧
    ChainId.childOf c7_mid = c7_predicted ∧
    c7_before.2 = .fail .InactiveChain ∧
    c7_child1.active = true ∧
    c7_child2.local_balance = .ok (tok 3) :=
  ⟨fun _ => rfl, by decide⟩

/-- C8: `close_chain` produces a ConfirmedBlock certificate whose block
contains exactly the one operation CloseChain, and it is terminal: the
subsequent `key_pair` retrieval and `transfer_to_account` both fail with
InactiveChain. -/
theorem c8_close_chain :
    c8_run.2.isOk = true ∧
    c8_cert.isConfirmedAt 0 = true ∧
    c8_ops = [.CloseChain] ∧
    c8_s1.key_pair = .fail .InactiveChain ∧
    (c8_s1.transfer_to_account honest4 (tok 3) (.chain (.root 2))).2 =
      .fail .InactiveChain := by
  decide

/-- C9: after a successful `transfer_ownership` the local client loses its
signing capability — `key_pair` and a further `transfer_to_account` fail
with CannotFindKeyForSingleOwnerChain — while the certificate is held by
all 4 honest validators (at least the quorum of 3) and the read-only
`local_balance` and `synchronize_from_validators` still succeed, each
returning 3.998 tokens. -/
theorem c9_transfer_ownership :
    c9_run.2.isOk = true ∧
    c9_s1.key_pair = .fail .CannotFindKeyForSingleOwnerChain ∧
    (c9_s1.transfer_to_account honest4 (tok 3) (.chain (.root 2))).2 =
      .fail .CannotFindKeyForSingleOwnerChain ∧
    c9_s1.local_balance = .ok (mil 3998) ∧
    (c9_s1.synchronize_from_validators []).2 = .ok (mil 3998) ∧
    3 ≤ honest4.certificateHolders := by
  decide

/-- C10: a transfer addressed to an owner-scoped account does not appear in
the recipient chain's unprotected balance: after `receive_certificate` and
`process_inbox` the recipient's `local_balance` is still zero while the
owner-scoped sub-account holds the 3 tokens, and an owner-issued claim (of
2 tokens) is what moves funds back out, ending with the claimant's balance
at 3 tokens. -/
theorem c10_owner_scoped_transfer :
    c4_r2.local_balance = .ok 0 ∧
    c4_r2.balance = 0 ∧
    ownerBalance c4_r2.owner_balances c4_owner = tok 3 ∧
    (c4_r2.applyMessage (.withdraw c4_owner (tok 2) (.chain (.root 1)))).2 =
      [(.root 1, .credit (.chain (.root 1)) (tok 2))] ∧
    c4_s5.local_balance = .ok (tok 3) := by
  decide

end Linera
